import Mathlib

/-!
Verification of the a0-marketplace ink! contract (`src/marketplace/lib.rs`)
against its natural-language specification.

The contract storage, records, events and every public operation are embedded
shallowly: machine integers (`u32`, `u8`) as `Nat` (no arithmetic in the source
ever wraps), `AccountId` and 256-bit `Hash`/`Digest` values as opaque `Nat`s,
`Vec` as `List`, and `BTreeSet<Hash>` as `Finset Nat`.  A call into the
contract either returns normally (new storage plus the list of emitted events
plus a value) or aborts via a Rust panic (the two stubbed operations end in
the `unimplemented` panic macro); the ink! execution environment rolls back
all storage writes and all staged events of an aborted call, which the
`applyOutcome` host function makes explicit.
-/

namespace Marketplace

/-- Source type `AccountId` of the ink! environment, opaque. -/
abbrev AccountId := Nat

/-- Source type `Hash` of the ink! environment, a 256-bit value, opaque. -/
abbrev Hash := Nat

/-- Source type `risc0_zkvm::sha::Digest`, an opaque proof artifact. -/
abbrev Digest := Nat

/-- Source `struct Sale` with fields status, prize, asset_id — the sale
status is a free-form string in the source, not an enum. -/
structure Sale where
  status : String
  prize : Nat
  asset_id : Nat
deriving DecidableEq, Repr

/-- Source `struct UserProfile` with fields account_id and reputation (u32). -/
structure UserProfile where
  account_id : AccountId
  reputation : Nat
deriving DecidableEq, Repr

/-- Source `struct Asset` with fields id, account_owner, name, description,
purchasable. -/
structure Asset where
  id : Nat
  account_owner : AccountId
  name : String
  description : List Nat
  purchasable : Bool
deriving DecidableEq, Repr

/-- The two event types of the contract: `ItemOnsale { seller_id }` and
`ItemBought { seller_id }`. -/
inductive Event where
  | ItemOnsale (seller_id : AccountId)
  | ItemBought (seller_id : AccountId)
deriving DecidableEq, Repr

/-- Contract storage `struct Marketplace`: users, assets, the single
`current_sale`, the `spent_nullifier` mapping (`Mapping<Hash, bool>`,
modelled as an association list; the source never reads or writes it) and
the `commitments` set (`BTreeSet<Hash>`). -/
structure State where
  users : List UserProfile
  assets : List Asset
  current_sale : Sale
  spent_nullifier : List (Hash × Bool)
  commitments : Finset Hash
deriving DecidableEq

/-- Result of one contract call: a normal return carries the new storage, the
events emitted during the call and the return value; `panicked` is a Rust
panic (`unimplemented` in the source), which aborts the call. -/
inductive CallOutcome (α : Type) where
  | ok (state : State) (events : List Event) (value : α)
  | panicked
deriving DecidableEq

/-- Host semantics of a call against persistent storage: a normal return
commits the new storage, an aborted (panicked) call is rolled back by the
ink! environment, leaving the pre-call storage. -/
def applyOutcome {α : Type} (pre : State) : CallOutcome α → State
  | CallOutcome.ok st _ _ => st
  | CallOutcome.panicked => pre

/-- Constructor `Marketplace::new(assets_list, users_list)`: initializes `current_sale`
to `{ status: "Closed", prize: 0, asset_id: 10 }`, stores `assets_list`, and
sets `users` to `Vec::new()` — the `users_list` argument is dropped. -/
def new (assets_list : List Asset) (users_list : List UserProfile) : State :=
  let init_sale : Sale := { status := "Closed", prize := 0, asset_id := 10 }
  { users := []
    assets := assets_list
    current_sale := init_sale
    commitments := ∅
    spent_nullifier := [] }

/-- Message `register_seller(new_hash)`: inserts `new_hash` into
`self.commitments` and returns; no event is emitted and no other storage
field is touched. -/
def register_seller (self : State) (new_hash : Hash) : State × List Event :=
  ({ self with commitments := insert new_hash self.commitments }, [])

/-- Operation `put_asset_on_sale(mut self, mut asset, zk_proof, account)`: if the asset
is not yet purchasable it stages `asset.purchasable = true` and overwrites
`current_sale` with an `OnGoing` sale for `asset.id`; it stages an
`ItemOnsale` event; the body then unconditionally hits the `unimplemented`
panic macro (the commitment, proof and nullifier checks exist only as
comments), so every call aborts and all staged effects are discarded.  Note
the source takes `self` by value and returns `Result<u32, LangError>`, so
even a normal return would not persist the staged storage. -/
def put_asset_on_sale (self : State) (asset : Asset) (zk_proof : Digest)
    (account : AccountId) : CallOutcome Nat :=
  let staged :=
    if !asset.purchasable then
      let asset := { asset with purchasable := true }
      let ongoing_sale : Sale := { status := "OnGoing", prize := 0, asset_id := asset.id }
      let self := { self with current_sale := ongoing_sale }
      (self, asset)
    else
      (self, asset)
  let staged_events : List Event := [Event.ItemOnsale account]
  -- the trailing `unimplemented` panic aborts the call here
  CallOutcome.panicked

/-- Message `buy_asset(asset, account, price)`: the balance check and the
ownership transfer exist only as comments; the body merely emits
`ItemBought { seller_id: account }` and returns successfully, mutating no
storage field. -/
def buy_asset (self : State) (asset : Asset) (account : AccountId)
    (price : Nat) : State × List Event :=
  (self, [Event.ItemBought account])

/-- Message `give_seller_review(seller, encrypted_change)`: only emits
`ItemBought { seller_id: seller }` (a copy-paste of the purchase event). -/
def give_seller_review (self : State) (seller : AccountId)
    (encrypted_change : List Nat) : State × List Event :=
  (self, [Event.ItemBought seller])

/-- Message `update_seller_reputation(hash, review_proof)`: converts
the words to a `Digest` and immediately hits the `unimplemented` panic macro;
no reputation logic exists in the source. -/
def update_seller_reputation (self : State) (hash : Hash)
    (review_proof : Fin 8 → Nat) : CallOutcome Unit :=
  CallOutcome.panicked

end Marketplace

namespace SpecModel

open Marketplace

/-- The error taxonomy of spec §7 (absent from the source, which has no typed
errors of its own). -/
inductive SpecErr where
  | InvalidProof
  | NullifierSpent
  | NotRegistered
  | InvalidSaleTransition
deriving DecidableEq, Repr

/-- Modelled from the spec: the Nullifier Set operation `try_consume` (§4.3)
is absent from src — only the `spent_nullifier` storage field is declared and
it is never used.  "atomically checks absence and inserts; returns `true` if
this is the first consumption, `false` if already present". -/
def try_consume (s : Finset Nat) (n : Nat) : Bool × Finset Nat :=
  if n ∈ s then (false, s) else (true, insert n s)

/-- A sequence of `try_consume` calls, threading the Nullifier Set. -/
def consumeList (s : Finset Nat) : List Nat → Finset Nat
  | [] => s
  | k :: ks => consumeList (try_consume s k).2 ks

/-- Modelled from the spec: the state the spec-level `list_asset` and
reputation operations act on — the Commitment Set, the Nullifier Set and the
Sale singleton (§2, §4.5). -/
structure SpecMarket where
  commitments : Finset Nat
  nullifiers : Finset Nat
  sale : Sale
deriving DecidableEq

/-- Modelled from the spec: `list_asset` (§4.5) is unimplemented in src
(`put_asset_on_sale` aborts before any check).  Guards in order: registration
(`Commitment Set.contains`), proof (`Proof Verifier.verify`, abstracted as a
boolean since the verifier is an opaque pure function), nullifier
(`try_consume`); on success sets `asset.purchasable = true`, transitions the
sale to `OnGoing` and emits `ItemOnsale`. -/
def spec_list_asset (m : SpecMarket) (asset : Asset) (caller : AccountId)
    (callerCommitment : Nat) (proofOk : Bool) (nullifier : Nat) :
    Except SpecErr (SpecMarket × Asset × List Event) :=
  if callerCommitment ∈ m.commitments then
    if proofOk then
      let r := try_consume m.nullifiers nullifier
      if r.1 then
        Except.ok
          ({ m with
              nullifiers := r.2
              sale := { status := "OnGoing", prize := m.sale.prize, asset_id := asset.id } },
            { asset with purchasable := true },
            [Event.ItemOnsale caller])
      else Except.error SpecErr.NullifierSpent
    else Except.error SpecErr.InvalidProof
  else Except.error SpecErr.NotRegistered

/-- Largest value of a `u32`. -/
def U32_MAX : Nat := 2 ^ 32 - 1

/-- Modelled from the spec: application of an attested reputation delta
"saturating — never underflows/overflows" (§4.5, §8); absent from src, where
`update_seller_reputation` aborts at once. -/
def apply_reputation_delta (rep : Nat) (delta : Int) : Nat :=
  (max 0 (min ((rep : Int) + delta) (U32_MAX : Int))).toNat

/-- Modelled from the spec: `submit_reputation_proof` (§4.5) — proof guard,
nullifier guard, then the saturating delta application; absent from src. -/
def spec_update_reputation (profile : UserProfile) (proofOk : Bool)
    (nullifiers : Finset Nat) (nullifier : Nat) (delta : Int) :
    Except SpecErr (UserProfile × Finset Nat) :=
  if proofOk then
    if (try_consume nullifiers nullifier).1 then
      Except.ok
        ({ profile with reputation := apply_reputation_delta profile.reputation delta },
          (try_consume nullifiers nullifier).2)
    else Except.error SpecErr.NullifierSpent
  else Except.error SpecErr.InvalidProof

theorem mem_try_consume_self (s : Finset Nat) (n : Nat) : n ∈ (try_consume s n).2 := by
  unfold try_consume
  split
  · simpa
  · simp

theorem mem_try_consume_mono (s : Finset Nat) (k m : Nat) (h : m ∈ s) :
    m ∈ (try_consume s k).2 := by
  unfold try_consume
  split
  · simpa
  · simp [h]

theorem mem_consumeList_mono (ks : List Nat) (s : Finset Nat) (m : Nat) (h : m ∈ s) :
    m ∈ consumeList s ks := by
  induction ks generalizing s with
  | nil => simpa [consumeList]
  | cons k ks ih =>
    simp only [consumeList]
    exact ih _ (mem_try_consume_mono s k m h)

theorem try_consume_of_mem (s : Finset Nat) (n : Nat) (h : n ∈ s) :
    try_consume s n = (false, s) := by
  simp [try_consume, h]

theorem apply_reputation_delta_le (rep : Nat) (delta : Int) :
    apply_reputation_delta rep delta ≤ U32_MAX := by
  unfold apply_reputation_delta
  refine Int.toNat_le.mpr (max_le ?_ (min_le_right _ _))
  exact Int.natCast_nonneg U32_MAX

end SpecModel

/-! ## Claim theorems -/

/-- Claim C1: the spec requires `put_asset_on_sale` to succeed exactly when
the caller's commitment is registered, the listing proof verifies and the
listing nullifier is freshly consumed, and then to set `purchasable`, move
the sale to `OnGoing` and emit `ItemOnSale`.  The code instead consults no
commitment, no proof and no nullifier and aborts every call through the
trailing `unimplemented` panic, so the operation never succeeds for any
input whatsoever. -/
theorem C1_put_asset_on_sale_always_aborts (self : Marketplace.State)
    (asset : Marketplace.Asset) (zk_proof : Marketplace.Digest)
    (account : Marketplace.AccountId) :
    Marketplace.put_asset_on_sale self asset zk_proof account
      = Marketplace.CallOutcome.panicked := rfl

/-- Claim C2 (spec-modelled): once a nullifier `n` has been consumed
successfully, it stays in the Nullifier Set across any further sequence of
consumptions, every later `try_consume` of `n` returns `false` without
changing the set, and the dependent `list_asset` operation (registration and
proof guards passing) is rejected with `NullifierSpent`. -/
theorem C2_nullifier_replay_rejected (s : Finset Nat) (n : Nat)
    (hfirst : (SpecModel.try_consume s n).1 = true) (ks : List Nat)
    (cs : Finset Nat) (sale : Marketplace.Sale) (asset : Marketplace.Asset)
    (caller cc : Nat) (hreg : cc ∈ cs) :
    n ∈ SpecModel.consumeList (SpecModel.try_consume s n).2 ks ∧
    SpecModel.try_consume (SpecModel.consumeList (SpecModel.try_consume s n).2 ks) n
      = (false, SpecModel.consumeList (SpecModel.try_consume s n).2 ks) ∧
    SpecModel.spec_list_asset
        ⟨cs, SpecModel.consumeList (SpecModel.try_consume s n).2 ks, sale⟩
        asset caller cc true n = Except.error SpecModel.SpecErr.NullifierSpent := by
  have hmem : n ∈ SpecModel.consumeList (SpecModel.try_consume s n).2 ks :=
    SpecModel.mem_consumeList_mono ks _ n (SpecModel.mem_try_consume_self s n)
  have hspent := SpecModel.try_consume_of_mem _ n hmem
  refine ⟨hmem, hspent, ?_⟩
  simp [SpecModel.spec_list_asset, hreg, hspent]

/-- Witness for C2 at concrete inputs: nullifier 5 first consumed from the
empty set, then nullifiers 3 and 4 consumed, then 5 replayed. -/
theorem C2_nullifier_replay_rejected_witness :
    (SpecModel.try_consume ∅ 5).1 = true ∧ (7 : Nat) ∈ ({7} : Finset Nat) ∧
    (5 ∈ SpecModel.consumeList (SpecModel.try_consume ∅ 5).2 [3, 4] ∧
      SpecModel.try_consume (SpecModel.consumeList (SpecModel.try_consume ∅ 5).2 [3, 4]) 5
        = (false, SpecModel.consumeList (SpecModel.try_consume ∅ 5).2 [3, 4]) ∧
      SpecModel.spec_list_asset
          ⟨{7}, SpecModel.consumeList (SpecModel.try_consume ∅ 5).2 [3, 4], ⟨"Closed", 0, 10⟩⟩
          ⟨1, 2, "a", [], false⟩ 9 7 true 5 = Except.error SpecModel.SpecErr.NullifierSpent) :=
  ⟨by decide, by decide,
    C2_nullifier_replay_rejected ∅ 5 (by decide) [3, 4] {7} ⟨"Closed", 0, 10⟩
      ⟨1, 2, "a", [], false⟩ 9 7 (by decide)⟩

/-- Claim C3: a listing call that fails leaves the sale record, the assets
(hence every `purchasable` flag), the nullifier mapping and the commitment
set exactly as before the call.  In the code every listing call fails (it
aborts through the `unimplemented` panic) and the abort rolls back all
staged effects, so the persistent storage after any call equals the pre-call
storage field by field. -/
theorem C3_failed_listing_is_all_or_nothing (self : Marketplace.State)
    (asset : Marketplace.Asset) (zk_proof : Marketplace.Digest)
    (account : Marketplace.AccountId) :
    (Marketplace.applyOutcome self
        (Marketplace.put_asset_on_sale self asset zk_proof account)).current_sale
      = self.current_sale ∧
    (Marketplace.applyOutcome self
        (Marketplace.put_asset_on_sale self asset zk_proof account)).assets
      = self.assets ∧
    (Marketplace.applyOutcome self
        (Marketplace.put_asset_on_sale self asset zk_proof account)).spent_nullifier
      = self.spent_nullifier ∧
    (Marketplace.applyOutcome self
        (Marketplace.put_asset_on_sale self asset zk_proof account)).commitments
      = self.commitments :=
  ⟨rfl, rfl, rfl, rfl⟩

/-- Claim C4: the spec requires a listing call made while the current sale is
`OnGoing` to be rejected with the typed error `InvalidSaleTransition`.  The
code never inspects `current_sale.status` (it would even stage an overwrite
of the `OnGoing` sale when the asset is not purchasable) and has no
`InvalidSaleTransition` error at all: the call aborts through the untyped
`unimplemented` panic, here evaluated on a storage whose sale is `OnGoing`. -/
theorem C4_listing_while_ongoing_aborts_untyped :
    (Marketplace.State.mk [] [] ⟨"OnGoing", 0, 1⟩ [] ∅).current_sale.status = "OnGoing" ∧
    Marketplace.put_asset_on_sale (Marketplace.State.mk [] [] ⟨"OnGoing", 0, 1⟩ [] ∅)
        ⟨2, 9, "second", [], false⟩ 0 9
      = Marketplace.CallOutcome.panicked :=
  ⟨rfl, rfl⟩

/-- Claim C5: the spec requires `buy_asset` to succeed only when the sale is
`OnGoing` for the given asset at the given price with sufficient balance,
and on success to transfer ownership, close the sale and clear
`purchasable`.  The code checks none of these guards and mutates nothing: it
returns successfully for every input — sale status, asset id, price and
balance notwithstanding — with the storage unchanged and a single
`ItemBought` event carrying the buyer's account id. -/
theorem C5_buy_asset_unguarded_noop (self : Marketplace.State)
    (asset : Marketplace.Asset) (account : Marketplace.AccountId) (price : Nat) :
    Marketplace.buy_asset self asset account price
      = (self, [Marketplace.Event.ItemBought account]) := rfl

/-- Claim C6 (spec-modelled): when the reputation-update operation succeeds,
the attested delta has been applied with saturating arithmetic, so the
resulting reputation stays within the `u32` range `[0, U32_MAX]`. -/
theorem C6_reputation_update_saturates (profile : Marketplace.UserProfile)
    (proofOk : Bool) (ns : Finset Nat) (nf : Nat) (delta : Int)
    (profile2 : Marketplace.UserProfile) (ns2 : Finset Nat)
    (hok : SpecModel.spec_update_reputation profile proofOk ns nf delta
            = Except.ok (profile2, ns2)) :
    profile2.reputation ≤ SpecModel.U32_MAX := by
  unfold SpecModel.spec_update_reputation at hok
  split at hok
  · split at hok
    · simp only [Except.ok.injEq, Prod.mk.injEq] at hok
      obtain ⟨h1, h2⟩ := hok
      subst h1
      exact SpecModel.apply_reputation_delta_le profile.reputation delta
    · exact absurd hok (by simp)
  · exact absurd hok (by simp)

/-- Witness for C6 at concrete inputs: reputation 10, delta −20, a valid
proof and a fresh nullifier; the result saturates at 0. -/
theorem C6_reputation_update_saturates_witness :
    SpecModel.spec_update_reputation ⟨1, 10⟩ true ∅ 0 (-20)
        = Except.ok ((⟨1, 0⟩ : Marketplace.UserProfile), ({0} : Finset Nat)) ∧
    (⟨1, 0⟩ : Marketplace.UserProfile).reputation ≤ SpecModel.U32_MAX :=
  ⟨by rfl, C6_reputation_update_saturates ⟨1, 10⟩ true ∅ 0 (-20) ⟨1, 0⟩ {0} (by rfl)⟩

/-- Claim C7: registering the same commitment twice is idempotent — after the
second call the commitment set (hence its membership and its size) equals
what it was after the first call, neither call produces an error (the
operation is total) and neither emits an event. -/
theorem C7_register_seller_idempotent (self : Marketplace.State) (h : Marketplace.Hash) :
    (Marketplace.register_seller (Marketplace.register_seller self h).1 h).1.commitments
      = (Marketplace.register_seller self h).1.commitments ∧
    ((Marketplace.register_seller (Marketplace.register_seller self h).1 h).1.commitments).card
      = ((Marketplace.register_seller self h).1.commitments).card ∧
    (Marketplace.register_seller self h).2 = [] ∧
    (Marketplace.register_seller (Marketplace.register_seller self h).1 h).2 = [] := by
  refine ⟨?_, ?_, rfl, rfl⟩ <;>
    simp [Marketplace.register_seller, Finset.insert_idem]

/-- Claim C8: `register_seller` is total (always succeeds), emits no event,
and its only storage effect is inserting the commitment: users, assets, the
current sale and the nullifier mapping are untouched. -/
theorem C8_register_seller_only_inserts (self : Marketplace.State) (h : Marketplace.Hash) :
    (Marketplace.register_seller self h).2 = [] ∧
    (Marketplace.register_seller self h).1.users = self.users ∧
    (Marketplace.register_seller self h).1.assets = self.assets ∧
    (Marketplace.register_seller self h).1.current_sale = self.current_sale ∧
    (Marketplace.register_seller self h).1.spent_nullifier = self.spent_nullifier ∧
    (Marketplace.register_seller self h).1.commitments = insert h self.commitments :=
  ⟨rfl, rfl, rfl, rfl, rfl, rfl⟩

/-- Claim C9: for every pair of constructor arguments the marketplace starts
with its sale in the `Closed` state. -/
theorem C9_new_sale_closed (assets_list : List Marketplace.Asset)
    (users_list : List Marketplace.UserProfile) :
    (Marketplace.new assets_list users_list).current_sale.status = "Closed" := rfl

/-- Claim C10: the constructor drops its `users_list` argument — the `users`
field of the fresh storage is the empty vector for every input. -/
theorem C10_new_drops_users (assets_list : List Marketplace.Asset)
    (users_list : List Marketplace.UserProfile) :
    (Marketplace.new assets_list users_list).users = [] := rfl
